import Mathlib

/-!
Verification development for the cc-mysql MCP server (`src/index.ts`).

We give a shallow embedding of the tool-dispatch and query-execution
pipeline: JSON values, the driver's result shapes, the query classifier
`detectQueryType`, the payload-size helper `calculatePayloadSize`, the
four tool handlers, and the `CallToolRequestSchema` dispatcher.  Side
effects (telemetry recorder calls, span operations, connection
acquire/release, statement issuance) are modelled as an explicit event
trace; thrown JavaScript errors are modelled with `Except`.  The database
driver and the telemetry backend are external collaborators, modelled by
a `World` structure of oracles.
-/

namespace CcMysql

/-- JavaScript values that flow through the server, restricted to the JSON
fragment the handlers actually produce.  `unserializable` stands for a
value on which `JSON.stringify` throws (a BigInt or a circular
structure). -/
inductive Json where
  | null : Json
  | bool (b : Bool) : Json
  | num (n : Int) : Json
  | str (s : String) : Json
  | arr (xs : List Json) : Json
  | obj (fields : List (String × Json)) : Json
  | unserializable : Json
deriving Repr

/-- Property lookup on a JSON object field list (first binding wins,
like a JS object literal read). -/
def lookupJson (fields : List (String × Json)) (k : String) : Option Json :=
  match fields with
  | [] => none
  | (k', v) :: rest => if k' = k then some v else lookupJson rest k

/-- Opening brace character, kept out of string literals. -/
def lbrace : String := String.singleton (Char.ofNat 123)

/-- Closing brace character, kept out of string literals. -/
def rbrace : String := String.singleton (Char.ofNat 125)

/-- JSON string escaping for quote and backslash (the only escapes the
values in this development need). -/
def escChar (c : Char) : List Char :=
  if c = '\"' ∨ c = '\\' then ['\\', c] else [c]

/-- Render a string as a JSON string literal. -/
def jstr (s : String) : String :=
  "\"" ++ String.mk (s.data.foldr (fun c acc => escChar c ++ acc) []) ++ "\""

mutual

/-- Model of `JSON.stringify` (compact form): `none` models a thrown
serialization error, which happens exactly when the value contains an
`unserializable` leaf. -/
def stringifyE : Json → Option String
  | .null => some "null"
  | .bool true => some "true"
  | .bool false => some "false"
  | .num n => some (toString n)
  | .str s => some (jstr s)
  | .arr xs => do
      let ss ← stringifyArr xs
      some ("[" ++ String.intercalate "," ss ++ "]")
  | .obj fs => do
      let ss ← stringifyObj fs
      some (lbrace ++ String.intercalate "," ss ++ rbrace)
  | .unserializable => none

/-- Serialize the elements of a JSON array. -/
def stringifyArr : List Json → Option (List String)
  | [] => some []
  | x :: xs => do
      let s ← stringifyE x
      let ss ← stringifyArr xs
      some (s :: ss)

/-- Serialize the fields of a JSON object. -/
def stringifyObj : List (String × Json) → Option (List String)
  | [] => some []
  | (k, v) :: fs => do
      let s ← stringifyE v
      let ss ← stringifyObj fs
      some ((jstr k ++ ":" ++ s) :: ss)

end

/-- Model of `calculatePayloadSize` (src/index.ts:443-449): byte length of the
UTF-8 serialization, or `0` when `JSON.stringify` throws; the try/catch
never lets the error escape. -/
def calculatePayloadSize (data : Json) : Nat :=
  match stringifyE data with
  | some s => s.utf8ByteSize
  | none => 0

/-- A thrown JavaScript value: either an `Error` instance carrying a
message, or any other value together with its `String(...)` coercion.
This is the distinction the dispatcher's catch makes with
`error instanceof Error ? error.message : String(error)`. -/
inductive JsError where
  | error (message : String) : JsError
  | value (coerced : String) : JsError
deriving Repr, DecidableEq

/-- The string message the dispatcher extracts from a thrown value
(src/index.ts:259). -/
def errMessage : JsError → String
  | .error m => m
  | .value s => s

/-- The whitespace characters `String.prototype.trim` removes,
restricted to the ASCII ones SQL text contains. -/
def isWsCh (c : Char) : Bool :=
  c = ' ' || c = '\t' || c = '\n' || c = '\r'

/-- Model of `String.prototype.trim` on the character-list view of a string. -/
def trimL (s : List Char) : List Char :=
  (((s.dropWhile isWsCh).reverse).dropWhile isWsCh).reverse

/-- Model of `String.prototype.toUpperCase`, ASCII fragment. -/
def toUpperL (s : List Char) : List Char := s.map Char.toUpper

/-- Model of `String.prototype.startsWith` on character lists. -/
def startsWithL (pat s : List Char) : Bool := pat.isPrefixOf s

/-- Model of `detectQueryType` (src/index.ts:426-440): trim, upper-case, then
test fixed keywords as prefixes in source order; note the final branch
also accepts the abbreviation `DESC`.  JS string operations are
modelled on the character-list view of the query text. -/
def detectQueryType (query : String) : String :=
  let normalized := toUpperL (trimL query.data)
  if startsWithL "SELECT".data normalized then "SELECT"
  else if startsWithL "INSERT".data normalized then "INSERT"
  else if startsWithL "UPDATE".data normalized then "UPDATE"
  else if startsWithL "DELETE".data normalized then "DELETE"
  else if startsWithL "CREATE".data normalized then "CREATE"
  else if startsWithL "ALTER".data normalized then "ALTER"
  else if startsWithL "DROP".data normalized then "DROP"
  else if startsWithL "TRUNCATE".data normalized then "TRUNCATE"
  else if startsWithL "REPLACE".data normalized then "REPLACE"
  else if startsWithL "SHOW".data normalized then "SHOW"
  else if startsWithL "DESCRIBE".data normalized || startsWithL "DESC".data normalized then "DESCRIBE"
  else "OTHER"

/-- Dynamic application of `detectQueryType` to a property value that
may be absent or not a string: `undefined.trim()` / non-string
`.trim()` throws a TypeError in JS. -/
def detectQueryTypeDyn : Option Json → Except JsError String
  | some (.str s) => .ok (detectQueryType s)
  | _ => .error (.error "query.trim is not a function")

/-- A field descriptor as the mysql2 driver reports it.  The driver
attaches more information than the server forwards; `table` stands for
those extra properties so that the projection below is not the
identity. -/
structure FieldDesc where
  name : String
  type : Nat
  table : String
deriving Repr, DecidableEq

/-- The `{name, type}` projection of a field descriptor produced by
`fields?.map((f) => ({name: f.name, type: f.type}))`
(src/index.ts:466-469). -/
structure ProjField where
  name : String
  type : Nat
deriving Repr, DecidableEq

/-- Project one field descriptor. -/
def projField (f : FieldDesc) : ProjField :=
  { name := f.name, type := f.type }

/-- mysql2's `ResultSetHeader` receipt for non-row-producing
statements. -/
structure ResultSetHeader where
  affectedRows : Nat
  insertId : Nat
  warningStatus : Nat
deriving Repr, DecidableEq

/-- The raw output of `connection.query`: either a sequence of rows
with optional field descriptors (SELECT-like), or a single receipt
(INSERT/UPDATE/DELETE-like).  The dispatch on this shape in the source
is `Array.isArray(results)` (src/index.ts:461). -/
inductive DriverResult where
  | rows (results : List Json) (fields : Option (List FieldDesc)) : DriverResult
  | header (h : ResultSetHeader) : DriverResult
deriving Repr

/-- The plain data value a handler returns to the dispatcher.  The
`rowSet` / `mutation` constructors are the two canonical shapes built
by `handleExecuteQuery`; `listTables` and `schema` are the descriptive
payloads of the other database handlers; `onboarding` is the static
document (its large literal body is irrelevant to every claim and is
abbreviated in `toJson`). -/
inductive ToolResult where
  | onboarding : ToolResult
  | listTables (database : String) (tables : List Json) : ToolResult
  | schema (database : String) (table : Option Json) (columns : List Json)
      (indexes : List Json) (createTableStatement : String) : ToolResult
  | rowSet (rowCount : Nat) (rows : List Json) (fields : Option (List ProjField)) : ToolResult
  | mutation (affectedRows : Nat) (insertId : Nat) (warningCount : Nat) : ToolResult
deriving Repr

/-- Render a projected field as JSON. -/
def ProjField.toJson (f : ProjField) : Json :=
  .obj [("name", .str f.name), ("type", .num f.type)]

/-- The JSON value a `ToolResult` serializes to.  An `Option` field that
is `none` models a JS `undefined` property, which `JSON.stringify`
omits. -/
def ToolResult.toJson : ToolResult → Json
  | .onboarding =>
      .obj [("guide", .str "Welcome to the MySQL MCP Server!"),
            ("description", .str "This server provides tools to explore and query MySQL databases efficiently.")]
  | .listTables db tables =>
      .obj [("database", .str db), ("tables", .arr tables)]
  | .schema db tbl cols idxs ct =>
      .obj ([("database", .str db)] ++
            (match tbl with
             | some v => [("table", v)]
             | none => []) ++
            [("columns", .arr cols), ("indexes", .arr idxs),
             ("createTableStatement", .str ct)])
  | .rowSet n rows fields =>
      .obj ([("rowCount", .num n), ("rows", .arr rows)] ++
            (match fields with
             | some fs => [("fields", .arr (fs.map ProjField.toJson))]
             | none => []))
  | .mutation a i w =>
      .obj [("affectedRows", .num a), ("insertId", .num i), ("warningCount", .num w)]

/-- One observable side effect of an invocation: a recorder call, a span
operation, or a pool/driver interaction.  Attribute values and
durations are not needed by any claim and are elided. -/
inductive Event where
  | toolCall (name : String) : Event
  | spanStart (name : String) : Event
  | spanAttr (key : String) : Event
  | spanEnd : Event
  | queryDuration (label : String) : Event
  | queryError (tool : String) (message : String) : Event
  | queryRows (n : Nat) (verb : String) (tool : String) : Event
  | queryBytes (n : Nat) (verb : String) (tool : String) : Event
  | connAcquire : Event
  | dbQuery (text : String) : Event
  | connRelease : Event
deriving Repr, DecidableEq

/-- The external collaborators of one invocation: whether telemetry
returned a span, the configured database name, and oracles giving the
outcome of each database interaction the handlers can perform. -/
structure World where
  spanEnabled : Bool
  dbName : String
  showTablesResult : Except JsError (List (List (String × Json)))
  describeResult : Option Json → Except JsError (List Json)
  indexesResult : Option Json → Except JsError (List Json)
  showCreateResult : Option Json → Except JsError (List Json)
  getConnection : Except JsError Unit
  connQuery : String → Except JsError DriverResult

/-- An inbound tool invocation: `arguments` is the optional argument
object (`none` models an absent / `undefined` arguments value). -/
structure Request where
  name : String
  arguments : Option (List (String × Json))

/-- The response envelope handed back to the transport: text content
blocks plus the `isError` flag (absent on success, modelled as
`false`). -/
structure Response where
  content : List String
  isError : Bool
deriving Repr, DecidableEq

/-- Property read `args.k` on the dynamic arguments value: reading a
property of `undefined` throws a TypeError, otherwise an absent key
yields `undefined` (`none`). -/
def getProp (args : Option (List (String × Json))) (k : String) : Except JsError (Option Json) :=
  match args with
  | none => .error (.error ("Cannot read properties of undefined (reading " ++ jstr k ++ ")"))
  | some fields => .ok (lookupJson fields k)

/-- Model of `handleListTables` (src/index.ts:365-384): one `SHOW TABLES`
statement, extraction of the `Tables_in_<db>` column, then the
rows/bytes/duration metric triple. -/
def handleListTables (w : World) : List Event × Except JsError ToolResult :=
  match w.showTablesResult with
  | .error e => ([.dbQuery "SHOW TABLES"], .error e)
  | .ok rows =>
      let tableKey := "Tables_in_" ++ w.dbName
      let tables := rows.map (fun r => (lookupJson r tableKey).getD .null)
      let resultData := ToolResult.listTables w.dbName tables
      let payloadSize := calculatePayloadSize resultData.toJson
      ([.dbQuery "SHOW TABLES",
        .queryRows tables.length "SHOW" "list_tables",
        .queryBytes payloadSize "SHOW" "list_tables",
        .queryDuration "list_tables.SHOW"],
       .ok resultData)

/-- Extraction `(createTable as any[])[0]?.['Create Table'] || ''`
(src/index.ts:399); the driver reports the statement as a string, and
every falsy or absent value collapses to the empty string. -/
def createFromRows (rows : List Json) : String :=
  match rows.head? with
  | some (.obj fs) =>
      match lookupJson fs "Create Table" with
      | some (.str s) => s
      | _ => ""
  | _ => ""

/-- Model of `handleGetTableSchema` (src/index.ts:386-423): DESCRIBE and SHOW
INDEXES must succeed; SHOW CREATE TABLE is wrapped in its own
try/catch and degrades to the empty string. -/
def handleGetTableSchema (w : World) (args : Option (List (String × Json))) :
    List Event × Except JsError ToolResult :=
  match getProp args "table" with
  | .error e => ([], .error e)
  | .ok tableVal =>
      match w.describeResult tableVal with
      | .error e => ([.dbQuery "DESCRIBE"], .error e)
      | .ok cols =>
          match w.indexesResult tableVal with
          | .error e => ([.dbQuery "DESCRIBE", .dbQuery "SHOW INDEXES"], .error e)
          | .ok idxs =>
              let createTableInfo :=
                match w.showCreateResult tableVal with
                | .error _ => ""
                | .ok createRows => createFromRows createRows
              let resultData := ToolResult.schema w.dbName tableVal cols idxs createTableInfo
              let payloadSize := calculatePayloadSize resultData.toJson
              ([.dbQuery "DESCRIBE", .dbQuery "SHOW INDEXES", .dbQuery "SHOW CREATE TABLE",
                .queryRows (cols.length + idxs.length) "DESCRIBE" "get_table_schema",
                .queryBytes payloadSize "DESCRIBE" "get_table_schema",
                .queryDuration "get_table_schema.DESCRIBE"],
               .ok resultData)

/-- Model of `handleExecuteQuery` (src/index.ts:451-499).  The connection is
acquired first; `detectQueryType(args.query)` runs after acquisition
and BEFORE the try/finally, so a non-string `query` would leak the
connection (that path is unreachable through the dispatcher, which
classifies the same value first); inside the try, both the success and
the failure of `connection.query` reach the `finally` release. -/
def handleExecuteQuery (w : World) (queryVal : Option Json) :
    List Event × Except JsError ToolResult :=
  match w.getConnection with
  | .error e => ([], .error e)
  | .ok _ =>
      match queryVal with
      | some (.str q) =>
          let queryType := detectQueryType q
          match w.connQuery q with
          | .error e => ([.connAcquire, .dbQuery q, .connRelease], .error e)
          | .ok (.rows results fields) =>
              let resultData := ToolResult.rowSet results.length results
                (fields.map (List.map projField))
              let payloadSize := calculatePayloadSize (Json.arr results)
              ([.connAcquire, .dbQuery q,
                .queryRows results.length queryType "execute_query",
                .queryBytes payloadSize queryType "execute_query",
                .queryDuration ("execute_query." ++ queryType),
                .connRelease],
               .ok resultData)
          | .ok (.header h) =>
              let resultData := ToolResult.mutation h.affectedRows h.insertId h.warningStatus
              let payloadSize := calculatePayloadSize resultData.toJson
              ([.connAcquire, .dbQuery q,
                .queryRows h.affectedRows queryType "execute_query",
                .queryBytes payloadSize queryType "execute_query",
                .queryDuration ("execute_query." ++ queryType),
                .connRelease],
               .ok resultData)
      | _ =>
          -- detectQueryType throws on a non-string between the
          -- acquisition and the try block: no release happens.
          ([.connAcquire], .error (.error "query.trim is not a function"))

/-- The switch body of the `CallToolRequestSchema` handler
(src/index.ts:202-229): route the tool name to its handler; an
unregistered name throws.  The returned trace holds the events emitted
inside the try block before the dispatcher's own epilogue. -/
def runTool (w : World) (req : Request) : List Event × Except JsError ToolResult :=
  if req.name = "onboarding" then ([], .ok .onboarding)
  else if req.name = "list_tables" then handleListTables w
  else if req.name = "get_table_schema" then handleGetTableSchema w req.arguments
  else if req.name = "execute_query" then
    match getProp req.arguments "query" with
    | .error e => ([], .error e)
    | .ok queryVal =>
        match detectQueryTypeDyn queryVal with
        | .error e => ([], .error e)
        | .ok _ =>
            let attrEv : List Event := if w.spanEnabled then [.spanAttr "query.type"] else []
            let handled := handleExecuteQuery w queryVal
            (attrEv ++ handled.1, handled.2)
  else ([], .error (.error ("Unknown tool: " ++ req.name)))

/-- The span operations of the success epilogue
(src/index.ts:234-247): mark success, annotate `execute_query` results
with their row or affected-row count, end the span; all no-ops when
`startSpan` returned null. -/
def successSpanEvents (w : World) (toolName : String) (result : ToolResult) : List Event :=
  if w.spanEnabled then
    [.spanAttr "success"] ++
    (if toolName = "execute_query" then
       match result with
       | .rowSet _ _ _ => [.spanAttr "query.rows"]
       | .mutation _ _ _ => [.spanAttr "query.affected_rows"]
       | _ => []
     else []) ++ [.spanEnd]
  else []

/-- The events of the catch branch (src/index.ts:257-268): duration,
error counter, then span failure annotation and close when a span
exists. -/
def catchEvents (w : World) (toolName : String) (msg : String) : List Event :=
  [.queryDuration toolName, .queryError toolName msg] ++
  (if w.spanEnabled then [.spanAttr "success", .spanAttr "error", .spanEnd] else [])

/-- The error payload `JSON.stringify({error: errorMessage})`
(src/index.ts:274-276): a single-field object. -/
def errorPayloadText (msg : String) : String :=
  (stringifyE (Json.obj [("error", Json.str msg)])).getD ""

/-- The error envelope the catch branch returns. -/
def errorResponse (msg : String) : Response :=
  { content := [errorPayloadText msg], isError := true }

/-- The events emitted before the try block: the call counter and the
span opening (src/index.ts:194-196). -/
def preEvents (w : World) (toolName : String) : List Event :=
  Event.toolCall toolName ::
    (if w.spanEnabled then [Event.spanStart ("tool." ++ toolName)] else [])

/-- The message `JSON.stringify` uses when it throws on a BigInt
value; the exact text is irrelevant to every claim. -/
def stringifyErrMsg : String := "Do not know how to serialize a BigInt"

/-- The full `CallToolRequestSchema` handler (src/index.ts:192-282):
record the call, open the span, run the switch inside try, then either
the success epilogue (duration, span annotations, serialized
envelope) or the catch branch (duration, error counter, span failure
close, error envelope).  Serializing the successful result happens
inside the try, after the span was already ended, so a serialization
failure falls into the catch and repeats the duration record and the
span close.  The function is total: no thrown error ever propagates to
the transport. -/
def dispatch (w : World) (req : Request) : List Event × Response :=
  let toolName := req.name
  let handled := runTool w req
  match handled.2 with
  | .error e =>
      (preEvents w toolName ++ handled.1 ++ catchEvents w toolName (errMessage e),
       errorResponse (errMessage e))
  | .ok result =>
      let okEvents := Event.queryDuration toolName :: successSpanEvents w toolName result
      match stringifyE result.toJson with
      | some s =>
          (preEvents w toolName ++ handled.1 ++ okEvents,
           { content := [s], isError := false })
      | none =>
          (preEvents w toolName ++ handled.1 ++ okEvents ++
             catchEvents w toolName stringifyErrMsg,
           errorResponse stringifyErrMsg)

/-- Number of events of a trace satisfying `p`. -/
def countE (p : Event → Bool) (tr : List Event) : Nat := tr.countP p

/-- Recognize a span close. -/
def isSpanEnd : Event → Bool
  | .spanEnd => true
  | _ => false

/-- Recognize any duration record. -/
def isDuration : Event → Bool
  | .queryDuration _ => true
  | _ => false

/-- Recognize a duration record with a given label. -/
def isDurationLabel (l : String) : Event → Bool
  | .queryDuration l' => l' == l
  | _ => false

/-- Recognize a connection acquisition. -/
def isAcquire : Event → Bool
  | .connAcquire => true
  | _ => false

/-- Recognize a connection release. -/
def isRelease : Event → Bool
  | .connRelease => true
  | _ => false

/-! ### Claim-side vocabulary for the query classifier -/

/-- The normalization `detectQueryType` applies before matching. -/
def normalizeQuery (s : String) : List Char := toUpperL (trimL s.data)

/-- The leading whitespace-delimited token of a character list. -/
def leadingToken (s : List Char) : List Char :=
  s.takeWhile (fun c => !isWsCh c)

/-- The keyword set named by the specification for the classifier. -/
def recognizedKeywords : List (List Char) :=
  ["SELECT".data, "INSERT".data, "UPDATE".data, "DELETE".data, "CREATE".data,
   "ALTER".data, "DROP".data, "TRUNCATE".data, "REPLACE".data, "SHOW".data,
   "DESCRIBE".data]

/-- The classifier's keyword table in source priority order, each
keyword paired with the verb it yields; the trailing `DESC` entry is
the abbreviation the source accepts for `DESCRIBE`. -/
def keywordTable : List (List Char × String) :=
  [("SELECT".data, "SELECT"), ("INSERT".data, "INSERT"), ("UPDATE".data, "UPDATE"),
   ("DELETE".data, "DELETE"), ("CREATE".data, "CREATE"), ("ALTER".data, "ALTER"),
   ("DROP".data, "DROP"), ("TRUNCATE".data, "TRUNCATE"), ("REPLACE".data, "REPLACE"),
   ("SHOW".data, "SHOW"), ("DESCRIBE".data, "DESCRIBE"), ("DESC".data, "DESCRIBE")]

/-- Modelled from the amended specification words: walk the keyword
table in priority order and return the verb of the first keyword that
is a prefix of the normalized text; no match yields `OTHER`. -/
def firstKeywordMatch : List (List Char × String) → List Char → String
  | [], _ => "OTHER"
  | (kw, verb) :: rest, n =>
      if startsWithL kw n then verb else firstKeywordMatch rest n

/-- The specification-side classifier: normalize, then take the first
prefix match of the keyword table. -/
def classifierSpec (s : String) : String :=
  firstKeywordMatch keywordTable (normalizeQuery s)

/-! ### Concrete worlds used by witnesses and counterexamples -/

/-- A world where every database interaction succeeds, telemetry is
enabled, and `SELECT 1` yields one row while any other query yields an
empty mutation receipt. -/
def okWorld : World where
  spanEnabled := true
  dbName := "shop"
  showTablesResult := .ok [[("Tables_in_shop", .str "users")],
                           [("Tables_in_shop", .str "orders")]]
  describeResult := fun _ => .ok [Json.obj [("Field", .str "id"), ("Type", .str "int")]]
  indexesResult := fun _ => .ok [Json.obj [("Key_name", .str "PRIMARY")]]
  showCreateResult := fun _ => .ok [Json.obj [("Create Table", .str "CREATE TABLE users (id int)")]]
  getConnection := .ok ()
  connQuery := fun q =>
    if q = "SELECT 1" then
      .ok (.rows [Json.obj [("1", .num 1)]] (some [{ name := "1", type := 8, table := "" }]))
    else
      .ok (.header { affectedRows := 0, insertId := 0, warningStatus := 0 })

/-- A world whose `SHOW TABLES` statement fails. -/
def dbDownWorld : World :=
  { okWorld with showTablesResult := .error (.error "DB down") }

/-- A world whose `SHOW CREATE TABLE` statement fails while the other
two schema statements succeed. -/
def noCreateWorld : World :=
  { okWorld with showCreateResult := fun _ => .error (.error "access denied") }

/-- The `query` argument is absent or not a string (the hypothesis of
the implicit claim about invalid `execute_query` arguments). -/
def queryArgNotString (args : Option (List (String × Json))) : Prop :=
  ∀ s : String, getProp args "query" ≠ .ok (some (.str s))

/-!
## Theorems

One theorem per claim, preceded by shared helper lemmas about the
event-counting combinators.
-/

/-- Counting distributes over trace concatenation. -/
theorem countE_append (p : Event → Bool) (l1 l2 : List Event) :
    countE p (l1 ++ l2) = countE p l1 + countE p l2 :=
  List.countP_append p l1 l2

/-- Claim C4 (counterexample): the classifier does not compare the
leading token against the keyword set — `"SELECTION"` has a leading
token outside the recognized set, yet it is classified `SELECT`, not
`OTHER`, because the source uses prefix tests. -/
theorem classifier_token_claim_counterexample :
    leadingToken (normalizeQuery "SELECTION") ∉ recognizedKeywords ∧
    detectQueryType "SELECTION" = "SELECT" ∧
    detectQueryType "SELECTION" ≠ "OTHER" :=
  ⟨by decide, by decide, by decide⟩

/-- Claim C4 (amended): for every input string, `detectQueryType`
trims, upper-cases, and returns the verb of the first entry of the
priority-ordered keyword table (`SELECT` … `SHOW`, `DESCRIBE`, `DESC`,
the last yielding `DESCRIBE`) that is a prefix of the normalized text,
and `OTHER` when no entry is a prefix — the behaviour of the
specification-side `classifierSpec`. -/
theorem classifier_prefix_table_equiv :
    ∀ s : String, detectQueryType s = classifierSpec s := by
  intro s
  simp only [detectQueryType, classifierSpec, normalizeQuery, keywordTable, firstKeywordMatch]
  generalize toUpperL (trimL s.data) = n
  cases hD : startsWithL "DESCRIBE".data n <;>
    cases hC : startsWithL "DESC".data n <;>
    simp [hD, hC]

/-- Claim C8: `calculatePayloadSize` returns the UTF-8 byte length of
the canonical serialization when serialization succeeds and `0` when
serialization throws; being a total function, it never propagates an
error to its caller. -/
theorem payload_size_never_throws (d : Json) :
    (∀ s, stringifyE d = some s → calculatePayloadSize d = s.utf8ByteSize) ∧
    (stringifyE d = none → calculatePayloadSize d = 0) := by
  constructor
  · intro s hs
    simp [calculatePayloadSize, hs]
  · intro h
    simp [calculatePayloadSize, h]

/-- Witness for claim C8 at concrete inputs: a serializable string and
an unserializable value. -/
theorem payload_size_never_throws_witness :
    calculatePayloadSize (Json.str "ok") = 4 ∧
    calculatePayloadSize Json.unserializable = 0 := by
  constructor
  · have h := (payload_size_never_throws (Json.str "ok")).1 (jstr "ok") (by simp [stringifyE])
    simpa [jstr, escChar] using h
  · exact (payload_size_never_throws Json.unserializable).2 (by simp [stringifyE])

/-- Claim C5: the result shaper of `handleExecuteQuery` produces, for a
row-sequence driver output of length N, a `rowSet` with
`rowCount = N`, the rows unchanged, and field descriptors projected to
name/type; and for a receipt output, a `mutation` carrying
affectedRows, insertId and the warning count (and, being a different
constructor, no rows field).  Exactly one of the two constructors
arises per successful call. -/
theorem result_shaper_two_shapes (w : World) (q : String)
    (hconn : w.getConnection = .ok ()) :
    (∀ rs fs, w.connQuery q = .ok (.rows rs fs) →
       (handleExecuteQuery w (some (.str q))).2 =
         .ok (.rowSet rs.length rs (fs.map (List.map projField)))) ∧
    (∀ h, w.connQuery q = .ok (.header h) →
       (handleExecuteQuery w (some (.str q))).2 =
         .ok (.mutation h.affectedRows h.insertId h.warningStatus)) := by
  constructor
  · intro rs fs hq
    simp [handleExecuteQuery, hconn, hq]
  · intro h hq
    simp [handleExecuteQuery, hconn, hq]

/-- Witness for claim C5: in `okWorld`, `SELECT 1` yields the row-set
shape with `rowCount = 1` and projected fields, and an `UPDATE` yields
the mutation shape. -/
theorem result_shaper_two_shapes_witness :
    (handleExecuteQuery okWorld (some (.str "SELECT 1"))).2 =
      .ok (.rowSet 1 [Json.obj [("1", .num 1)]] (some [{ name := "1", type := 8 }])) ∧
    (handleExecuteQuery okWorld (some (.str "UPDATE t SET a=1"))).2 =
      .ok (.mutation 0 0 0) := by
  constructor
  · exact (result_shaper_two_shapes okWorld "SELECT 1" rfl).1
      [Json.obj [("1", .num 1)]] (some [{ name := "1", type := 8, table := "" }]) rfl
  · exact (result_shaper_two_shapes okWorld "UPDATE t SET a=1" rfl).2
      { affectedRows := 0, insertId := 0, warningStatus := 0 } rfl

/-- Claim C7: when the column-description and index statements succeed
and `SHOW CREATE TABLE` fails, `handleGetTableSchema` still succeeds,
returning the columns and indexes of the first two statements and the
empty string for `createTableStatement`. -/
theorem show_create_best_effort (w : World) (fs : List (String × Json))
    (cols idxs : List Json) (e : JsError)
    (hd : w.describeResult (lookupJson fs "table") = .ok cols)
    (hi : w.indexesResult (lookupJson fs "table") = .ok idxs)
    (hc : w.showCreateResult (lookupJson fs "table") = .error e) :
    (handleGetTableSchema w (some fs)).2 =
      .ok (.schema w.dbName (lookupJson fs "table") cols idxs "") := by
  simp [handleGetTableSchema, getProp, hd, hi, hc]

/-- Witness for claim C7: in `noCreateWorld`, the schema call on
`users` succeeds with the non-empty columns and indexes and an empty
create statement. -/
theorem show_create_best_effort_witness :
    (handleGetTableSchema noCreateWorld (some [("table", .str "users")])).2 =
      .ok (.schema "shop" (some (.str "users"))
        [Json.obj [("Field", .str "id"), ("Type", .str "int")]]
        [Json.obj [("Key_name", .str "PRIMARY")]] "") := by
  exact show_create_best_effort noCreateWorld [("table", .str "users")]
    [Json.obj [("Field", .str "id"), ("Type", .str "int")]]
    [Json.obj [("Key_name", .str "PRIMARY")]] (.error "access denied") rfl rfl rfl

/-- Claim C10: on a successful `execute_query`, the byte metric of a
row-set result is computed from the serialized raw rows array alone
(not from the rowCount/fields wrapper), while the byte metric of a
mutation result is computed from the full returned object; the row
metric is the sequence length for row sets and `affectedRows` for
mutations.  Stated as the exact event trace of the handler. -/
theorem execute_query_metric_inputs (w : World) (q : String)
    (hconn : w.getConnection = .ok ()) :
    (∀ rs fs, w.connQuery q = .ok (.rows rs fs) →
       (handleExecuteQuery w (some (.str q))).1 =
         [.connAcquire, .dbQuery q,
          .queryRows rs.length (detectQueryType q) "execute_query",
          .queryBytes (calculatePayloadSize (Json.arr rs)) (detectQueryType q) "execute_query",
          .queryDuration ("execute_query." ++ detectQueryType q),
          .connRelease]) ∧
    (∀ h, w.connQuery q = .ok (.header h) →
       (handleExecuteQuery w (some (.str q))).1 =
         [.connAcquire, .dbQuery q,
          .queryRows h.affectedRows (detectQueryType q) "execute_query",
          .queryBytes (calculatePayloadSize
            (ToolResult.mutation h.affectedRows h.insertId h.warningStatus).toJson)
            (detectQueryType q) "execute_query",
          .queryDuration ("execute_query." ++ detectQueryType q),
          .connRelease]) := by
  constructor
  · intro rs fs hq
    simp [handleExecuteQuery, hconn, hq]
  · intro h hq
    simp [handleExecuteQuery, hconn, hq]

/-- Witness for claim C10: the concrete traces of a `SELECT 1` and an
`UPDATE` in `okWorld`. -/
theorem execute_query_metric_inputs_witness :
    (handleExecuteQuery okWorld (some (.str "SELECT 1"))).1 =
      [.connAcquire, .dbQuery "SELECT 1",
       .queryRows 1 "SELECT" "execute_query",
       .queryBytes (calculatePayloadSize (Json.arr [Json.obj [("1", .num 1)]])) "SELECT" "execute_query",
       .queryDuration "execute_query.SELECT",
       .connRelease] ∧
    (handleExecuteQuery okWorld (some (.str "UPDATE t SET a=1"))).1 =
      [.connAcquire, .dbQuery "UPDATE t SET a=1",
       .queryRows 0 "UPDATE" "execute_query",
       .queryBytes (calculatePayloadSize (ToolResult.mutation 0 0 0).toJson) "UPDATE" "execute_query",
       .queryDuration "execute_query.UPDATE",
       .connRelease] := by
  constructor
  · have h := (execute_query_metric_inputs okWorld "SELECT 1" rfl).1
      [Json.obj [("1", .num 1)]] (some [{ name := "1", type := 8, table := "" }]) rfl
    simpa using h
  · have h := (execute_query_metric_inputs okWorld "UPDATE t SET a=1" rfl).2
      { affectedRows := 0, insertId := 0, warningStatus := 0 } rfl
    simpa using h

/-! ### Counting lemmas for the dispatcher's fixed event blocks -/

/-- The pre-block events close no span. -/
theorem spanEnd_preEvents (w : World) (n : String) :
    countE isSpanEnd (preEvents w n) = 0 := by
  cases hw : w.spanEnabled <;>
    simp [preEvents, hw, countE, List.countP_cons, List.countP_nil, isSpanEnd]

/-- The catch branch closes the span exactly when one was opened. -/
theorem spanEnd_catchEvents (w : World) (n m : String) :
    countE isSpanEnd (catchEvents w n m) = if w.spanEnabled then 1 else 0 := by
  cases hw : w.spanEnabled <;>
    simp [catchEvents, hw, countE, List.countP_cons, List.countP_nil, List.countP_append, isSpanEnd]

/-- The success epilogue closes the span exactly when one was opened. -/
theorem spanEnd_successSpanEvents (w : World) (n : String) (r : ToolResult) :
    countE isSpanEnd (successSpanEvents w n r) = if w.spanEnabled then 1 else 0 := by
  cases hw : w.spanEnabled <;> by_cases hn : n = "execute_query" <;> cases r <;>
    simp [successSpanEvents, hw, hn, countE, List.countP_cons, List.countP_nil,
      List.countP_append, isSpanEnd]

/-- The pre-block events record no duration. -/
theorem durLabel_preEvents (w : World) (n l : String) :
    countE (isDurationLabel l) (preEvents w n) = 0 := by
  cases hw : w.spanEnabled <;>
    simp [preEvents, hw, countE, List.countP_cons, List.countP_nil, isDurationLabel]

/-- The catch branch records exactly one duration, labelled with the
tool name. -/
theorem durLabel_catchEvents (w : World) (n m : String) :
    countE (isDurationLabel n) (catchEvents w n m) = 1 := by
  cases hw : w.spanEnabled <;>
    simp [catchEvents, hw, countE, List.countP_cons, List.countP_nil, List.countP_append,
      isDurationLabel]

/-- The span operations of the success epilogue record no duration. -/
theorem durLabel_successSpanEvents (w : World) (n : String) (r : ToolResult) (l : String) :
    countE (isDurationLabel l) (successSpanEvents w n r) = 0 := by
  cases hw : w.spanEnabled <;> by_cases hn : n = "execute_query" <;> cases r <;>
    simp [successSpanEvents, hw, hn, countE, List.countP_cons, List.countP_nil,
      List.countP_append, isDurationLabel]

/-- The pre-block events touch no pooled connection. -/
theorem conn_preEvents (w : World) (n : String) :
    countE isAcquire (preEvents w n) = 0 ∧ countE isRelease (preEvents w n) = 0 := by
  cases hw : w.spanEnabled <;>
    simp [preEvents, hw, countE, List.countP_cons, List.countP_nil, isAcquire, isRelease]

/-- The catch branch touches no pooled connection. -/
theorem conn_catchEvents (w : World) (n m : String) :
    countE isAcquire (catchEvents w n m) = 0 ∧ countE isRelease (catchEvents w n m) = 0 := by
  cases hw : w.spanEnabled <;>
    simp [catchEvents, hw, countE, List.countP_cons, List.countP_nil, List.countP_append,
      isAcquire, isRelease]

/-- The success epilogue touches no pooled connection. -/
theorem conn_successSpanEvents (w : World) (n : String) (r : ToolResult) :
    countE isAcquire (successSpanEvents w n r) = 0 ∧
    countE isRelease (successSpanEvents w n r) = 0 := by
  cases hw : w.spanEnabled <;> by_cases hn : n = "execute_query" <;> cases r <;>
    simp [successSpanEvents, hw, hn, countE, List.countP_cons, List.countP_nil,
      List.countP_append, isAcquire, isRelease]

/-- Claim C1: whenever the selected handler or the switch body throws,
the dispatcher returns the error envelope — `isError = true` with the
serialized single-field `error` object built from the thrown value's
message (its `message` property for `Error` instances, its string
coercion otherwise).  `dispatch` is a total function, so the thrown
error never reaches the transport layer. -/
theorem dispatcher_catches_handler_errors (w : World) (req : Request) (e : JsError)
    (h : (runTool w req).2 = .error e) :
    (dispatch w req).2 = errorResponse (errMessage e) := by
  simp [dispatch, h]

/-- Witness for claim C1: a failing `SHOW TABLES` statement surfaces
as the error envelope with the driver's message. -/
theorem dispatcher_catches_handler_errors_witness :
    (dispatch dbDownWorld { name := "list_tables", arguments := none }).2 =
      errorResponse "DB down" :=
  dispatcher_catches_handler_errors dbDownWorld
    { name := "list_tables", arguments := none } (.error "DB down") rfl

/-- Claim C6: invoking an unregistered tool name records the
call-count metric first, runs no handler (the trace holds no handler
events at all), and returns the error envelope whose message is
exactly `Unknown tool: <name>`; `dispatch` returns normally, so the
process does not terminate. -/
theorem unknown_tool_envelope (w : World) (name : String)
    (args : Option (List (String × Json)))
    (h : name ∉ (["onboarding", "list_tables", "get_table_schema", "execute_query"] : List String)) :
    dispatch w { name := name, arguments := args } =
      (preEvents w name ++ catchEvents w name ("Unknown tool: " ++ name),
       errorResponse ("Unknown tool: " ++ name)) := by
  have h1 : name ≠ "onboarding" := fun hh => h (by simp [hh])
  have h2 : name ≠ "list_tables" := fun hh => h (by simp [hh])
  have h3 : name ≠ "get_table_schema" := fun hh => h (by simp [hh])
  have h4 : name ≠ "execute_query" := fun hh => h (by simp [hh])
  simp [dispatch, runTool, h1, h2, h3, h4, errMessage]

/-- Witness for claim C6 at the concrete name `drop_table`. -/
theorem unknown_tool_envelope_witness :
    dispatch okWorld { name := "drop_table", arguments := none } =
      ([.toolCall "drop_table", .spanStart "tool.drop_table",
        .queryDuration "drop_table", .queryError "drop_table" "Unknown tool: drop_table",
        .spanAttr "success", .spanAttr "error", .spanEnd],
       errorResponse "Unknown tool: drop_table") := by
  have h := unknown_tool_envelope okWorld "drop_table" none (by decide)
  simpa [preEvents, catchEvents, okWorld] using h

/-! ### Counting lemmas for the handler traces -/

/-- The handler-level duration label `execute_query.VERB` never equals
the bare tool name. -/
theorem dotLabel_ne (v : String) : ¬ ("execute_query." ++ v = "execute_query") := by
  intro hh
  have hlen := congrArg String.length hh
  rw [String.length_append] at hlen
  have h14 : ("execute_query." : String).length = 14 := rfl
  have h13 : ("execute_query" : String).length = 13 := rfl
  omega

/-- The list-tables handler closes no span, records no `list_tables`-labelled
duration, and touches no pooled connection. -/
theorem handleListTables_trace (w : World) :
    countE isSpanEnd (handleListTables w).1 = 0 ∧
    countE (isDurationLabel "list_tables") (handleListTables w).1 = 0 ∧
    countE isAcquire (handleListTables w).1 = 0 ∧
    countE isRelease (handleListTables w).1 = 0 := by
  rcases hq : w.showTablesResult with e | rows <;>
    simp [handleListTables, hq, countE, List.countP_cons, List.countP_nil,
      isSpanEnd, isDurationLabel, isAcquire, isRelease]

/-- The schema handler closes no span, records no
`get_table_schema`-labelled duration, and touches no pooled
connection. -/
theorem handleGetTableSchema_trace (w : World) (args : Option (List (String × Json))) :
    countE isSpanEnd (handleGetTableSchema w args).1 = 0 ∧
    countE (isDurationLabel "get_table_schema") (handleGetTableSchema w args).1 = 0 ∧
    countE isAcquire (handleGetTableSchema w args).1 = 0 ∧
    countE isRelease (handleGetTableSchema w args).1 = 0 := by
  rcases hg : getProp args "table" with e | tv
  · simp [handleGetTableSchema, hg, countE, List.countP_nil]
  · rcases hd : w.describeResult tv with e | cols
    · simp [handleGetTableSchema, hg, hd, countE, List.countP_cons, List.countP_nil,
        isSpanEnd, isDurationLabel, isAcquire, isRelease]
    · rcases hi : w.indexesResult tv with e | idxs <;>
        simp [handleGetTableSchema, hg, hd, hi, countE, List.countP_cons, List.countP_nil,
          isSpanEnd, isDurationLabel, isAcquire, isRelease]

/-- The query handler closes no span and records no
`execute_query`-labelled duration (its own duration label always has a
`.VERB` suffix). -/
theorem handleExecuteQuery_trace (w : World) (v : Option Json) :
    countE isSpanEnd (handleExecuteQuery w v).1 = 0 ∧
    countE (isDurationLabel "execute_query") (handleExecuteQuery w v).1 = 0 := by
  rcases hconn : w.getConnection with e | u
  · simp [handleExecuteQuery, hconn, countE, List.countP_nil]
  · rcases v with _ | j
    · simp [handleExecuteQuery, hconn, countE, List.countP_cons, List.countP_nil,
        isSpanEnd, isDurationLabel]
    · cases j
      case str q =>
        rcases hq : w.connQuery q with e | dr
        · simp [handleExecuteQuery, hconn, hq, countE, List.countP_cons, List.countP_nil,
            isSpanEnd, isDurationLabel]
        · cases dr <;>
            simp [handleExecuteQuery, hconn, hq, countE, List.countP_cons, List.countP_nil,
              isSpanEnd, isDurationLabel, dotLabel_ne]
      all_goals
        simp [handleExecuteQuery, hconn, countE, List.countP_cons, List.countP_nil,
          isSpanEnd, isDurationLabel]

/-- For a string query value, `handleExecuteQuery` releases exactly as
often as it acquires, and acquires at most once. -/
theorem handleExecuteQuery_conn (w : World) (q : String) :
    countE isAcquire (handleExecuteQuery w (some (.str q))).1 ≤ 1 ∧
    countE isRelease (handleExecuteQuery w (some (.str q))).1 =
      countE isAcquire (handleExecuteQuery w (some (.str q))).1 := by
  rcases hconn : w.getConnection with e | u
  · simp [handleExecuteQuery, hconn, countE, List.countP_nil]
  · rcases hq : w.connQuery q with e | dr
    · simp [handleExecuteQuery, hconn, hq, countE, List.countP_cons, List.countP_nil,
        isAcquire, isRelease]
    · cases dr <;>
        simp [handleExecuteQuery, hconn, hq, countE, List.countP_cons, List.countP_nil,
          isAcquire, isRelease]

/-- Counting over a cons cell. -/
theorem countE_cons (p : Event → Bool) (e : Event) (l : List Event) :
    countE p (e :: l) = countE p l + if p e then 1 else 0 :=
  List.countP_cons p e l

/-- Counting over the empty trace. -/
theorem countE_nil (p : Event → Bool) : countE p [] = 0 :=
  List.countP_nil p

/-- The span attribute emitted for the query type in the
`execute_query` switch case touches no pooled connection. -/
theorem conn_queryTypeAttr (w : World) :
    countE isAcquire (if w.spanEnabled then [Event.spanAttr "query.type"] else []) = 0 ∧
    countE isRelease (if w.spanEnabled then [Event.spanAttr "query.type"] else []) = 0 := by
  cases hw : w.spanEnabled <;>
    simp [hw, countE, List.countP_cons, List.countP_nil, isAcquire, isRelease]

/-- The try-block trace of `runTool` closes no span and records no
duration labelled with the bare tool name. -/
theorem runTool_trace (w : World) (req : Request) :
    countE isSpanEnd (runTool w req).1 = 0 ∧
    countE (isDurationLabel req.name) (runTool w req).1 = 0 := by
  obtain ⟨nm, args⟩ := req
  simp only
  by_cases h1 : nm = "onboarding"
  · subst h1
    simp [runTool, countE, List.countP_nil]
  by_cases h2 : nm = "list_tables"
  · subst h2
    have hl := handleListTables_trace w
    simpa [runTool] using ⟨hl.1, hl.2.1⟩
  by_cases h3 : nm = "get_table_schema"
  · subst h3
    have hl := handleGetTableSchema_trace w args
    simpa [runTool] using ⟨hl.1, hl.2.1⟩
  by_cases h4 : nm = "execute_query"
  · subst h4
    rcases hg : getProp args "query" with e | v
    · simp [runTool, hg, countE, List.countP_nil]
    · rcases hd : detectQueryTypeDyn v with e | qt
      · simp [runTool, hg, hd, countE, List.countP_nil]
      · have hl := handleExecuteQuery_trace w v
        have hattr : countE isSpanEnd
              (if w.spanEnabled then [Event.spanAttr "query.type"] else []) = 0 ∧
            countE (isDurationLabel "execute_query")
              (if w.spanEnabled then [Event.spanAttr "query.type"] else []) = 0 := by
          cases hw : w.spanEnabled <;>
            simp [hw, countE, List.countP_cons, List.countP_nil, isSpanEnd, isDurationLabel]
        simp [runTool, hg, hd, countE_append, hattr.1, hattr.2, hl.1, hl.2]
  · simp [runTool, h1, h2, h3, h4, countE, List.countP_nil]

/-- Every dispatch outcome takes one of three shapes: handler failure,
success with a serializable result, or success whose result
serialization throws inside the try (falling into the catch). -/
theorem dispatch_trace_decomp (w : World) (req : Request) :
    (∃ e, (runTool w req).2 = .error e ∧
       (dispatch w req).1 =
         preEvents w req.name ++ (runTool w req).1 ++
           catchEvents w req.name (errMessage e) ∧
       (dispatch w req).2 = errorResponse (errMessage e)) ∨
    (∃ r s, (runTool w req).2 = .ok r ∧ stringifyE r.toJson = some s ∧
       (dispatch w req).1 =
         preEvents w req.name ++ (runTool w req).1 ++
           (Event.queryDuration req.name :: successSpanEvents w req.name r) ∧
       (dispatch w req).2 = { content := [s], isError := false }) ∨
    (∃ r, (runTool w req).2 = .ok r ∧ stringifyE r.toJson = none ∧
       (dispatch w req).1 =
         preEvents w req.name ++ (runTool w req).1 ++
           (Event.queryDuration req.name :: successSpanEvents w req.name r) ++
           catchEvents w req.name stringifyErrMsg ∧
       (dispatch w req).2 = errorResponse stringifyErrMsg) := by
  rcases hrt : runTool w req with ⟨tr, out⟩
  cases out with
  | error e =>
      refine Or.inl ⟨e, by simp [hrt], by simp [dispatch, hrt], by simp [dispatch, hrt]⟩
  | ok r =>
      rcases hs : stringifyE r.toJson with _ | s
      · refine Or.inr (Or.inr ⟨r, by simp [hrt], hs,
          by simp [dispatch, hrt, hs], by simp [dispatch, hrt, hs]⟩)
      · refine Or.inr (Or.inl ⟨r, s, by simp [hrt], hs,
          by simp [dispatch, hrt, hs], by simp [dispatch, hrt, hs]⟩)

/-- The try-block trace of an `execute_query` dispatch acquires at most
one connection and releases exactly as many as it acquires. -/
theorem runTool_exec_conn (w : World) (args : Option (List (String × Json))) :
    countE isAcquire (runTool w { name := "execute_query", arguments := args }).1 ≤ 1 ∧
    countE isRelease (runTool w { name := "execute_query", arguments := args }).1 =
      countE isAcquire (runTool w { name := "execute_query", arguments := args }).1 := by
  rcases hg : getProp args "query" with e | v
  · simp [runTool, hg, countE, List.countP_nil]
  · rcases v with _ | j
    · simp [runTool, hg, detectQueryTypeDyn, countE, List.countP_nil]
    · cases j
      case str q =>
        have hc := handleExecuteQuery_conn w q
        have hattr := conn_queryTypeAttr w
        constructor
        · simpa [runTool, hg, detectQueryTypeDyn, countE_append, hattr.1] using hc.1
        · simp [runTool, hg, detectQueryTypeDyn, countE_append, hattr.1, hattr.2, hc.2]
      all_goals simp [runTool, hg, detectQueryTypeDyn, countE, List.countP_nil]

/-- Claim C3: on every `execute_query` invocation through the
dispatcher, the pooled connection is acquired at most once and
released exactly as often as it is acquired — in particular, whenever
a connection is acquired it is released exactly once, whether the
handler throws before, during, or after statement execution. -/
theorem execute_query_release_balanced (w : World) (args : Option (List (String × Json))) :
    countE isAcquire (dispatch w { name := "execute_query", arguments := args }).1 ≤ 1 ∧
    countE isRelease (dispatch w { name := "execute_query", arguments := args }).1 =
      countE isAcquire (dispatch w { name := "execute_query", arguments := args }).1 := by
  have hrun := runTool_exec_conn w args
  rcases dispatch_trace_decomp w { name := "execute_query", arguments := args } with
    ⟨e, ho, htr, hresp⟩ | ⟨r, s, ho, hs, htr, hresp⟩ | ⟨r, ho, hs, htr, hresp⟩
  · rw [htr]
    simp only [countE_append, conn_preEvents, conn_catchEvents]
    constructor
    · simpa using hrun.1
    · simpa using hrun.2
  · rw [htr]
    simp only [countE_append, conn_preEvents, conn_successSpanEvents, countE_cons]
    simp only [isAcquire, isRelease]
    constructor
    · simpa [conn_preEvents, conn_successSpanEvents] using hrun.1
    · simpa [conn_preEvents, conn_successSpanEvents] using hrun.2
  · rw [htr]
    constructor
    · simpa [countE_append, countE_cons, conn_preEvents, conn_catchEvents,
        conn_successSpanEvents, isAcquire, isRelease] using hrun.1
    · simpa [countE_append, countE_cons, conn_preEvents, conn_catchEvents,
        conn_successSpanEvents, isAcquire, isRelease] using hrun.2

/-- Claim C9 (implicit): when the `execute_query` arguments lack a
`query` field or carry a non-string one, the dispatcher's own
classifier call (or the preceding property read) throws before the
handler runs, so the invocation yields an error envelope and no pooled
connection is ever acquired. -/
theorem invalid_query_no_connection (w : World) (args : Option (List (String × Json)))
    (h : queryArgNotString args) :
    (dispatch w { name := "execute_query", arguments := args }).2.isError = true ∧
    countE isAcquire (dispatch w { name := "execute_query", arguments := args }).1 = 0 := by
  have hrt : ∃ e, runTool w { name := "execute_query", arguments := args } = ([], .error e) := by
    rcases hg : getProp args "query" with e | v
    · exact ⟨e, by simp [runTool, hg]⟩
    · have hdyn : detectQueryTypeDyn v = .error (.error "query.trim is not a function") := by
        rcases v with _ | j
        · rfl
        · cases j
          case str s => exact absurd hg (h s)
          all_goals rfl
      exact ⟨.error "query.trim is not a function", by simp [runTool, hg, hdyn]⟩
  obtain ⟨e, hrt⟩ := hrt
  constructor
  · simp [dispatch, hrt, errorResponse]
  · have h1 := (conn_preEvents w "execute_query").1
    have h2 := (conn_catchEvents w "execute_query" (errMessage e)).1
    simp [dispatch, hrt, countE_append, countE_nil, h1, h2]

/-- Witness for claim C9: an argument object without a `query` key
yields `isError = true` and zero connection acquisitions. -/
theorem invalid_query_no_connection_witness :
    (dispatch okWorld { name := "execute_query", arguments := some [] }).2.isError = true ∧
    countE isAcquire (dispatch okWorld { name := "execute_query", arguments := some [] }).1 = 0 :=
  invalid_query_no_connection okWorld (some [])
    (fun s hs => by simp [getProp, lookupJson] at hs)

/-- Claim C2 (counterexample): a successful `list_tables` invocation
records TWO durations — the handler's statement-level
`list_tables.SHOW` record and the dispatcher's envelope-level
`list_tables` record — so "exactly one duration-record per
invocation" fails on the success path. -/
theorem list_tables_double_duration_counterexample :
    countE isDuration (dispatch okWorld { name := "list_tables", arguments := none }).1 ≠ 1 ∧
    countE isDuration (dispatch okWorld { name := "list_tables", arguments := none }).1 = 2 := by
  constructor <;> decide

/-- Claim C2 (amended): on every invocation whose successful result
serializes (true of everything the driver hands back), the span is
closed exactly once when telemetry opened one (zero times when it did
not), and exactly one dispatcher-level duration-record labelled with
the bare tool name occurs; the database handlers may add one further
statement-level duration under a dotted `tool.VERB` label. -/
theorem span_close_duration_amended (w : World) (req : Request)
    (hser : ∀ r, (runTool w req).2 = .ok r → (stringifyE (ToolResult.toJson r)).isSome = true) :
    countE isSpanEnd (dispatch w req).1 = (if w.spanEnabled then 1 else 0) ∧
    countE (isDurationLabel req.name) (dispatch w req).1 = 1 := by
  have hrun := runTool_trace w req
  rcases dispatch_trace_decomp w req with
    ⟨e, ho, htr, hresp⟩ | ⟨r, s, ho, hs, htr, hresp⟩ | ⟨r, ho, hs, htr, hresp⟩
  · rw [htr]
    have hp1 := spanEnd_preEvents w req.name
    have hc1 := spanEnd_catchEvents w req.name (errMessage e)
    have hp2 := durLabel_preEvents w req.name req.name
    have hc2 := durLabel_catchEvents w req.name (errMessage e)
    constructor
    · simp [countE_append, hp1, hc1, hrun.1]
    · simp [countE_append, hp2, hc2, hrun.2]
  · rw [htr]
    constructor
    · simp [countE_append, countE_cons, spanEnd_preEvents, spanEnd_successSpanEvents,
        hrun.1, isSpanEnd]
    · simp [countE_append, countE_cons, durLabel_preEvents, durLabel_successSpanEvents,
        hrun.2, isDurationLabel]
  · exact absurd (hser r ho) (by simp [hs])

/-- Witness for the amended claim C2: the successful `list_tables`
call closes its span once and records exactly one `list_tables`-
labelled duration. -/
theorem span_close_duration_amended_witness :
    countE isSpanEnd (dispatch okWorld { name := "list_tables", arguments := none }).1 = 1 ∧
    countE (isDurationLabel "list_tables")
      (dispatch okWorld { name := "list_tables", arguments := none }).1 = 1 := by
  have h := span_close_duration_amended okWorld { name := "list_tables", arguments := none }
    (fun r hr => by
      have hr2 : (Except.ok (ToolResult.listTables "shop" [Json.str "users", Json.str "orders"]) :
          Except JsError ToolResult) = .ok r := hr
      cases hr2
      rfl)
  simpa [okWorld] using h

end CcMysql
